import Mathlib

/-!
Shallow embedding of `src/health_agent.py` (AI Health & Fitness Agent).

The program is a single-page session controller: a profile form, a
"Generate My Personalized Plan" button that runs two LLM agents and stores
two plan records in session state, and a gated Q&A loop that appends
(question, answer) pairs.  External LLM calls are modelled as oracle
results of type `Except String String` (error message or returned text);
the side effects that matter to the claims (LLM calls, session-state
writes, error banners) are recorded as an event trace.
-/

namespace HealthAgent

/-- A user profile as read from the seven form widgets.  Each field is kept
as the text that Python f-string interpolation inserts into the prompt
(`str(age)`, `str(weight)`, ...). -/
structure Profile where
  age : String
  weight : String
  height : String
  sex : String
  activity_level : String
  dietary_preferences : String
  fitness_goals : String
deriving DecidableEq

/-- An agno `Agent(...)` configuration as constructed in the source:
a name, a role, a model identifier and a list of instruction strings.
`name`/`role` are `Option` because the Q&A agent passes neither. -/
structure Agent where
  name : Option String
  role : Option String
  model : String
  instructions : List String
deriving DecidableEq

/-- The model id passed to `Gemini(id=..., api_key=...)` (line 62). -/
def gemini_model : String := "gemini-2.5-flash-preview-05-20"

/-- The `dietary_agent` configuration (lines 108-118). -/
def dietary_agent : Agent :=
  { name := some "Dietary Expert"
    role := some "Provides personalized dietary recommendations"
    model := gemini_model
    instructions :=
      ["Consider the user\x27s input, including dietary restrictions and preferences.",
       "Suggest a detailed meal plan for the day, including breakfast, lunch, dinner, and snacks.",
       "Provide a brief explanation of why the plan is suited to the user\x27s goals.",
       "Focus on clarity, coherence, and quality of the recommendations."] }

/-- The `fitness_agent` configuration (lines 120-130). -/
def fitness_agent : Agent :=
  { name := some "Fitness Expert"
    role := some "Provides personalized fitness recommendations"
    model := gemini_model
    instructions :=
      ["Provide exercises tailored to the user\x27s goals.",
       "Include warm-up, main workout, and cool-down exercises.",
       "Explain the benefits of each recommended exercise.",
       "Ensure the plan is actionable and detailed."] }

/-- The plain Q&A agent `Agent(model=gemini_model, show_tool_calls=True,
markdown=True)` (line 178): no name, no role, no instructions. -/
def qa_agent : Agent :=
  { name := none, role := none, model := gemini_model, instructions := [] }

/-- The `user_profile` f-string (lines 98-106), with its exact literal text
including the 16-space indentation of the triple-quoted string.  Written
right-associated so each interpolated field sits between two literal
chunks. -/
def user_profile (p : Profile) : String :=
  "\n                Age: " ++ (p.age ++
  ("\n                Weight: " ++ (p.weight ++ ("kg" ++
  ("\n                Height: " ++ (p.height ++ ("cm" ++
  ("\n                Sex: " ++ (p.sex ++
  ("\n                Activity Level: " ++ (p.activity_level ++
  ("\n                Dietary Preferences: " ++ (p.dietary_preferences ++
  ("\n                Fitness Goals: " ++ (p.fitness_goals ++
  "\n                ")))))))))))))))

/-- The `dietary_plan` record built on lines 132-141: a rationale, the
meal-plan text returned by the LLM, and a block of considerations. -/
structure DietaryPlan where
  why_this_plan_works : String
  meal_plan : String
  important_considerations : String
deriving DecidableEq

/-- The `fitness_plan` record built on lines 143-152. -/
structure FitnessPlan where
  goals : String
  routine : String
  tips : String
deriving DecidableEq

/-- The constant `"why_this_plan_works"` string (line 133). -/
def why_this_plan_works_const : String :=
  "High Protein, Healthy Fats, Moderate Carbohydrates, and Caloric Balance"

/-- The constant `"important_considerations"` triple-quoted string
(lines 135-140), 20-space indentation preserved. -/
def important_considerations_const : String :=
  "\n                    - Hydration: Drink plenty of water throughout the day\n                    - Electrolytes: Monitor sodium, potassium, and magnesium levels\n                    - Fiber: Ensure adequate intake through vegetables and fruits\n                    - Listen to your body: Adjust portion sizes as needed\n                    "

/-- The constant `"goals"` string (line 144). -/
def goals_const : String :=
  "Build strength, improve endurance, and maintain overall fitness"

/-- The constant `"tips"` triple-quoted string (lines 146-151). -/
def tips_const : String :=
  "\n                    - Track your progress regularly\n                    - Allow proper rest between workouts\n                    - Focus on proper form\n                    - Stay consistent with your routine\n                    "

/-- The four `st.session_state` slots the program uses (lines 67-71).
The Python code initialises the two plans to empty dicts `\x7b\x7d`;
`none` models the empty dict, `some` a populated plan record. -/
structure SessionState where
  dietary_plan : Option DietaryPlan
  fitness_plan : Option FitnessPlan
  qa_pairs : List (String × String)
  plans_generated : Bool
deriving DecidableEq

/-- The initial session state established on first run (lines 67-71). -/
def initState : SessionState :=
  { dietary_plan := none, fitness_plan := none, qa_pairs := [], plans_generated := false }

/-- Observable side effects relevant to the claims: an LLM generation call
(`agent.run(prompt)`), a write to one `st.session_state` slot, and an
error banner (`st.error`). -/
inductive Event where
  | llmCall (agent : Agent) (prompt : String)
  | storeField (field : String)
  | showError (msg : String)
deriving DecidableEq

/-- Whether an event is an LLM generation call. -/
def Event.isCall : Event → Bool
  | .llmCall _ _ => true
  | _ => false

/-- Whether an event is a session-state write. -/
def Event.isStore : Event → Bool
  | .storeField _ => true
  | _ => false

/-- Whether an event is an error banner. -/
def Event.isError : Event → Bool
  | .showError _ => true
  | _ => false

/-- The body of the "Generate My Personalized Plan" button handler
(lines 95-163).  `r1` is the oracle result of `dietary_agent.run(user_profile)`
(line 134), `r2` that of `fitness_agent.run(user_profile)` (line 145).
An exception from either call aborts the `try` block before any of the four
session-state assignments on lines 154-157, so the state is returned
unchanged and only `st.error` fires (line 163); if the first call raises,
the second is never made.  On success the four assignments run in source
order. -/
def generatePlans (s : SessionState) (p : Profile) (r1 r2 : Except String String) :
    SessionState × List Event :=
  let prompt := user_profile p
  match r1 with
  | .error e =>
      (s, [.llmCall dietary_agent prompt,
           .showError ("❌ An error occurred while generating plans: " ++ e)])
  | .ok meal =>
    match r2 with
    | .error e =>
        (s, [.llmCall dietary_agent prompt, .llmCall fitness_agent prompt,
             .showError ("❌ An error occurred while generating plans: " ++ e)])
    | .ok routine =>
        ({ dietary_plan := some { why_this_plan_works := why_this_plan_works_const,
                                  meal_plan := meal,
                                  important_considerations := important_considerations_const },
           fitness_plan := some { goals := goals_const,
                                  routine := routine,
                                  tips := tips_const },
           plans_generated := true,
           qa_pairs := [] },
         [.llmCall dietary_agent prompt, .llmCall fitness_agent prompt,
          .storeField "dietary_plan", .storeField "fitness_plan",
          .storeField "plans_generated", .storeField "qa_pairs"])

/-- `st.session_state.dietary_plan.get("meal_plan")` (line 174): Python
`dict.get` on the initial empty dict yields `None`, rendered as the text
`"None"` by the f-string. -/
def mealPlanText : Option DietaryPlan → String
  | none => "None"
  | some d => d.meal_plan

/-- `st.session_state.fitness_plan.get("routine")` (line 175). -/
def routineText : Option FitnessPlan → String
  | none => "None"
  | some f => f.routine

/-- The `context` f-string of the Q&A handler (lines 173-177), 24-space
indentation preserved, right-associated. -/
def context (s : SessionState) (question : String) : String :=
  "\n                        Dietary Plan: " ++ (mealPlanText s.dietary_plan ++
  ("\n                        Fitness Plan: " ++ (routineText s.fitness_plan ++
  ("\n                        User Question: " ++ (question ++
  "\n                        ")))))

/-- The body of the "Get Answer" button handler (lines 169-182).  Python
`if question:` makes the empty string a silent no-op.  Otherwise one call
`agent.run(context)` is made with the plain `qa_agent`; on success the pair
is appended to `qa_pairs` (line 180), on failure `st.error` fires (line 182)
and nothing is stored. -/
def getAnswer (s : SessionState) (question : String) (r : Except String String) :
    SessionState × List Event :=
  if question = "" then (s, [])
  else
    match r with
    | .ok answer =>
        ({ s with qa_pairs := s.qa_pairs ++ [(question, answer)] },
         [.llmCall qa_agent (context s question), .storeField "qa_pairs"])
    | .error e =>
        (s, [.llmCall qa_agent (context s question),
             .showError ("❌ Failed to get answer: " ++ e)])

/-- One user interaction with the page.  A generate click carries the
profile and the two oracle results; a get-answer click carries the question
text and one oracle result. -/
inductive UserAction where
  | generateClick (p : Profile) (r1 r2 : Except String String)
  | getAnswerClick (question : String) (r : Except String String)

/-- One script rerun acting on session state.  The question input and the
"Get Answer" button are rendered only inside `if st.session_state.plans_generated:`
(line 165), so a get-answer click outside that state does nothing and makes
no call. -/
def step (s : SessionState) (a : UserAction) : SessionState × List Event :=
  match a with
  | .generateClick p r1 r2 => generatePlans s p r1 r2
  | .getAnswerClick q r => if s.plans_generated then getAnswer s q r else (s, [])

/-- The session state after a sequence of interactions starting from the
freshly initialised state. -/
def run (acts : List UserAction) : SessionState :=
  acts.foldl (fun s a => (step s a).1) initState

/-- Outcome of the top of `main()` (lines 56-71): the API-key guard
(lines 57-59), the `Gemini(...)` construction guard (lines 61-65), then
session-state initialisation.  A fatal outcome returns from `main` before
any session state is touched and before any form is rendered. -/
inductive MainOutcome where
  | fatalNoApiKey
  | fatalModelInit (e : String)
  | running (s : SessionState)
deriving DecidableEq

/-- The startup sequence of `main()`.  `apiKey` is the value of
`os.getenv("GEMINI_API_KEY", "")` (line 9), so an unset variable arrives
here as the empty string; `if not GEMINI_API_KEY` (line 57) is the
empty-string test.  `prior` is the session state carried over from a
previous rerun, `none` on the first run. -/
def mainInit (apiKey : String) (modelInit : Except String Unit)
    (prior : Option SessionState) : MainOutcome :=
  if apiKey = "" then .fatalNoApiKey
  else
    match modelInit with
    | .error e => .fatalModelInit e
    | .ok _ => .running (prior.getD initState)

/-- Proposition that `t` occurs verbatim inside `s`. -/
def ContainsStr (s t : String) : Prop := ∃ a b, s = a ++ (t ++ b)

/-- A profile matching the worked example of the specification. -/
def sampleProfile : Profile :=
  { age := "30", weight := "70.0", height := "175.0", sex := "Male",
    activity_level := "Moderately Active", dietary_preferences := "Low Carb",
    fitness_goals := "Lose Weight" }

/-- A sequence of "Get Answer" attempts applied in order: each attempt is a
question text together with the oracle result of its generation call. -/
def runQA (s : SessionState) (attempts : List (String × Except String String)) :
    SessionState :=
  attempts.foldl (fun s qr => (getAnswer s qr.1 qr.2).1) s

/-- The (question, answer) pairs produced by the attempts that actually
succeed: non-empty question and a successful generation call. -/
def successfulPairs (attempts : List (String × Except String String)) :
    List (String × String) :=
  attempts.filterMap fun qr =>
    match qr with
    | (q, Except.ok a) => if q = "" then none else some (q, a)
    | (_, Except.error _) => none

/-- A populated dietary plan used to instantiate theorems about the Q&A
handler. -/
def sampleDietaryPlan : DietaryPlan :=
  { why_this_plan_works := why_this_plan_works_const,
    meal_plan := "Breakfast: eggs. Lunch: salad. Dinner: fish.",
    important_considerations := important_considerations_const }

/-- A populated fitness plan used to instantiate theorems about the Q&A
handler. -/
def sampleFitnessPlan : FitnessPlan :=
  { goals := goals_const,
    routine := "Warm-up, squats, cool-down.",
    tips := tips_const }

/-- A session state in the PlansReady stage: both plans stored and the
`plans_generated` flag set. -/
def sampleReadyState : SessionState :=
  { dietary_plan := some sampleDietaryPlan, fitness_plan := some sampleFitnessPlan,
    qa_pairs := [], plans_generated := true }

theorem containsStr_head (t b : String) : ContainsStr (t ++ b) t :=
  ⟨"", b, by simp⟩

theorem containsStr_appendl (x : String) {s t : String} (h : ContainsStr s t) :
    ContainsStr (x ++ s) t := by
  rcases h with ⟨a, b, rfl⟩
  exact ⟨x ++ a, b, by simp [String.append_assoc]⟩

/-- Session states in which the `plans_generated` flag implies both plan
slots are populated. -/
def PlansInv (s : SessionState) : Prop :=
  s.plans_generated = true → s.dietary_plan.isSome = true ∧ s.fitness_plan.isSome = true

theorem step_preserves_plansInv (s : SessionState) (a : UserAction)
    (h : PlansInv s) : PlansInv (step s a).1 := by
  cases a with
  | generateClick p r1 r2 =>
      cases r1 with
      | error e => simpa [step, generatePlans] using h
      | ok m =>
          cases r2 with
          | error e => simpa [step, generatePlans] using h
          | ok rt => intro _; simp [step, generatePlans]
  | getAnswerClick q r =>
      by_cases hg : s.plans_generated
      · by_cases hq : q = ""
        · simpa [step, hg, getAnswer, hq] using h
        · cases r with
          | ok a => simpa [step, hg, getAnswer, hq, PlansInv] using h
          | error e => simpa [step, hg, getAnswer, hq] using h
      · simpa [step, hg] using h

theorem foldl_preserves_plansInv (acts : List UserAction) (s : SessionState)
    (h : PlansInv s) : PlansInv (acts.foldl (fun s a => (step s a).1) s) := by
  induction acts generalizing s with
  | nil => exact h
  | cons a rest ih => exact ih _ (step_preserves_plansInv s a h)

/-- C1: if either of the two generation calls made by the generate-plans
handler raises an error (in particular the second one), no plan is stored:
the session state is returned exactly as it was and the trace holds no
session-state write. -/
theorem generatePlans_failure_leaves_state_unchanged
    (s : SessionState) (p : Profile) (r1 r2 : Except String String)
    (h : (∃ e, r1 = Except.error e) ∨ (∃ e, r2 = Except.error e)) :
    (generatePlans s p r1 r2).1 = s ∧
    ∀ ev ∈ (generatePlans s p r1 r2).2, ev.isStore = false := by
  cases r1 with
  | error e =>
      refine ⟨rfl, ?_⟩
      intro ev hev
      simp [generatePlans] at hev
      rcases hev with h1 | h1 <;> subst h1 <;> rfl
  | ok m =>
      cases r2 with
      | error e =>
          refine ⟨rfl, ?_⟩
          intro ev hev
          simp [generatePlans] at hev
          rcases hev with h1 | h1 | h1 <;> subst h1 <;> rfl
      | ok rt =>
          rcases h with ⟨e, he⟩ | ⟨e, he⟩ <;> simp at he

/-- Witness for C1 at a concrete input: the first call succeeds, the second
fails, and the state is untouched. -/
theorem generatePlans_failure_leaves_state_unchanged_witness :
    (generatePlans initState sampleProfile (Except.ok "meal text")
        (Except.error "quota exceeded")).1 = initState ∧
    ∀ ev ∈ (generatePlans initState sampleProfile (Except.ok "meal text")
        (Except.error "quota exceeded")).2, ev.isStore = false :=
  generatePlans_failure_leaves_state_unchanged initState sampleProfile
    (Except.ok "meal text") (Except.error "quota exceeded")
    (Or.inr ⟨"quota exceeded", rfl⟩)

/-- C3: whenever the generate-plans handler writes anything to session
state, its full event trace is exactly the dietary-agent call followed by
the fitness-agent call followed by the four state writes — so the external
capability is called exactly twice before anything is stored, and no store
happens before or between the two calls. -/
theorem generatePlans_calls_twice_before_store
    (s : SessionState) (p : Profile) (r1 r2 : Except String String)
    (h : ∃ ev ∈ (generatePlans s p r1 r2).2, ev.isStore = true) :
    (generatePlans s p r1 r2).2 =
      [Event.llmCall dietary_agent (user_profile p),
       Event.llmCall fitness_agent (user_profile p),
       Event.storeField "dietary_plan", Event.storeField "fitness_plan",
       Event.storeField "plans_generated", Event.storeField "qa_pairs"] := by
  cases r1 with
  | error e => simp [generatePlans, Event.isStore] at h
  | ok m =>
      cases r2 with
      | error e => simp [generatePlans, Event.isStore] at h
      | ok rt => rfl

/-- Witness for C3 at a concrete input where both calls succeed. -/
theorem generatePlans_calls_twice_before_store_witness :
    (generatePlans initState sampleProfile (Except.ok "meal text")
        (Except.ok "routine text")).2 =
      [Event.llmCall dietary_agent (user_profile sampleProfile),
       Event.llmCall fitness_agent (user_profile sampleProfile),
       Event.storeField "dietary_plan", Event.storeField "fitness_plan",
       Event.storeField "plans_generated", Event.storeField "qa_pairs"] :=
  generatePlans_calls_twice_before_store initState sampleProfile
    (Except.ok "meal text") (Except.ok "routine text")
    ⟨Event.storeField "dietary_plan", by simp [generatePlans], rfl⟩

/-- C5: a successful generate-plans run stores both plan records, sets the
`plans_generated` flag, and resets the QA list to empty, whatever the prior
session state was. -/
theorem generatePlans_success_state (s : SessionState) (p : Profile)
    (meal routine : String) :
    (generatePlans s p (Except.ok meal) (Except.ok routine)).1 =
      { dietary_plan := some { why_this_plan_works := why_this_plan_works_const,
                               meal_plan := meal,
                               important_considerations := important_considerations_const },
        fitness_plan := some { goals := goals_const,
                               routine := routine,
                               tips := tips_const },
        plans_generated := true,
        qa_pairs := [] } := rfl

/-- C9: in the stored plans, the rationale and considerations of the
dietary plan and the goals and tips of the fitness plan equal fixed
constants independent of the profile and of both generation results; only
the meal plan and the routine come from the external calls. -/
theorem stored_plan_side_fields_constant (s : SessionState) (p : Profile)
    (meal routine : String) :
    ((generatePlans s p (Except.ok meal) (Except.ok routine)).1.dietary_plan =
      some { why_this_plan_works := why_this_plan_works_const,
             meal_plan := meal,
             important_considerations := important_considerations_const }) ∧
    ((generatePlans s p (Except.ok meal) (Except.ok routine)).1.fitness_plan =
      some { goals := goals_const, routine := routine, tips := tips_const }) :=
  ⟨rfl, rfl⟩

/-- C10: clicking "Get Answer" with an empty question is a complete no-op
in every session state: no generation call, no error banner, and the
session state is unchanged. -/
theorem empty_question_is_noop (s : SessionState) (r : Except String String) :
    step s (UserAction.getAnswerClick "" r) = (s, []) := by
  cases hg : s.plans_generated <;> simp [step, hg, getAnswer]

/-- C2: the question box and "Get Answer" handler are unreachable unless
`plans_generated` is true — a get-answer click in any other state does
nothing and makes no call — and in every session state reachable from the
initial one, `plans_generated` implies both plans are stored, so a QA pair
can only be requested after both plans exist. -/
theorem answer_gated_and_plans_exist :
    (∀ (s : SessionState) (q : String) (r : Except String String),
        s.plans_generated = false →
        step s (UserAction.getAnswerClick q r) = (s, [])) ∧
    (∀ acts : List UserAction, (run acts).plans_generated = true →
        (run acts).dietary_plan.isSome = true ∧
        (run acts).fitness_plan.isSome = true) := by
  constructor
  · intro s q r h
    simp [step, h]
  · intro acts
    exact foldl_preserves_plansInv acts initState (fun h => by simp [initState] at h)

/-- Witness for C2: a get-answer click on the fresh state is a no-op, and
after one successful generation both plans are present. -/
theorem answer_gated_and_plans_exist_witness :
    step initState (UserAction.getAnswerClick "Is this keto?" (Except.ok "Yes")) =
      (initState, []) ∧
    ((run [UserAction.generateClick sampleProfile (Except.ok "meal text")
        (Except.ok "routine text")]).dietary_plan.isSome = true ∧
     (run [UserAction.generateClick sampleProfile (Except.ok "meal text")
        (Except.ok "routine text")]).fitness_plan.isSome = true) :=
  ⟨answer_gated_and_plans_exist.1 initState "Is this keto?" (Except.ok "Yes") rfl,
   answer_gated_and_plans_exist.2
     [UserAction.generateClick sampleProfile (Except.ok "meal text")
       (Except.ok "routine text")] rfl⟩

/-- C4: over any sequence of "Get Answer" attempts, the QA list of the
resulting state is the original list with exactly the successful attempts
(non-empty question, successful call) appended at the end in submission
order — failures and empty questions change nothing and no pair is ever
removed or edited. -/
theorem qa_pairs_append_only (s : SessionState)
    (attempts : List (String × Except String String)) :
    (runQA s attempts).qa_pairs = s.qa_pairs ++ successfulPairs attempts := by
  induction attempts generalizing s with
  | nil => simp [runQA, successfulPairs]
  | cons qr rest ih =>
      rcases qr with ⟨q, r⟩
      have hstep : runQA s ((q, r) :: rest) = runQA (getAnswer s q r).1 rest := rfl
      rw [hstep, ih]
      by_cases hq : q = ""
      · subst hq
        cases r <;> simp [getAnswer, successfulPairs]
      · cases r with
        | ok a => simp [getAnswer, hq, successfulPairs]
        | error e => simp [getAnswer, hq, successfulPairs]

/-- C7: when the environment-sourced API key is absent (`os.getenv`
returns the empty string both for an unset and for an empty variable),
`main` ends in the fatal no-key outcome for every model-initialisation
result and every carried-over state: no session state is initialised or
modified and no form or handler is reachable. -/
theorem missing_api_key_blocks_all (modelInit : Except String Unit)
    (prior : Option SessionState) :
    mainInit "" modelInit prior = MainOutcome.fatalNoApiKey := rfl

/-- C6: for a non-empty question in a state holding both plans, the
"Get Answer" handler makes exactly one generation call, with the
instruction-free agent, on a single context string containing the stored
meal-plan text, the stored routine text and the question verbatim; on
success it appends exactly (question, answer) to the QA list, on failure it
shows an error banner and leaves the state unchanged. -/
theorem getAnswer_context_call_append
    (s : SessionState) (d : DietaryPlan) (f : FitnessPlan) (q : String)
    (r : Except String String)
    (hd : s.dietary_plan = some d) (hf : s.fitness_plan = some f)
    (hq : ¬ q = "") :
    List.filter Event.isCall (getAnswer s q r).2 =
      [Event.llmCall qa_agent (context s q)] ∧
    qa_agent.instructions = [] ∧
    ContainsStr (context s q) d.meal_plan ∧
    ContainsStr (context s q) f.routine ∧
    ContainsStr (context s q) q ∧
    (∀ a, r = Except.ok a →
      (getAnswer s q r).1 = { s with qa_pairs := s.qa_pairs ++ [(q, a)] }) ∧
    (∀ e, r = Except.error e →
      (getAnswer s q r).1 = s ∧
      Event.showError ("❌ Failed to get answer: " ++ e) ∈ (getAnswer s q r).2) := by
  refine ⟨?_, rfl, ?_, ?_, ?_, ?_, ?_⟩
  · cases r with
    | ok a => simp [getAnswer, hq, Event.isCall]
    | error e => simp [getAnswer, hq, Event.isCall]
  · simp only [context, hd, mealPlanText]
    repeat first | exact containsStr_head _ _ | apply containsStr_appendl
  · simp only [context, hf, routineText]
    repeat first | exact containsStr_head _ _ | apply containsStr_appendl
  · simp only [context]
    repeat first | exact containsStr_head _ _ | apply containsStr_appendl
  · intro a ha
    subst ha
    simp [getAnswer, hq]
  · intro e he
    subst he
    exact ⟨by simp [getAnswer, hq], by simp [getAnswer, hq]⟩

/-- Witness for C6 at a concrete PlansReady state, question and successful
answer. -/
theorem getAnswer_context_call_append_witness :
    List.filter Event.isCall
        (getAnswer sampleReadyState "Can I swap lunch?" (Except.ok "Yes.")).2 =
      [Event.llmCall qa_agent (context sampleReadyState "Can I swap lunch?")] ∧
    qa_agent.instructions = [] ∧
    ContainsStr (context sampleReadyState "Can I swap lunch?")
      sampleDietaryPlan.meal_plan ∧
    ContainsStr (context sampleReadyState "Can I swap lunch?")
      sampleFitnessPlan.routine ∧
    ContainsStr (context sampleReadyState "Can I swap lunch?")
      "Can I swap lunch?" ∧
    (∀ a, (Except.ok "Yes." : Except String String) = Except.ok a →
      (getAnswer sampleReadyState "Can I swap lunch?" (Except.ok "Yes.")).1 =
        { sampleReadyState with
            qa_pairs := sampleReadyState.qa_pairs ++ [("Can I swap lunch?", a)] }) ∧
    (∀ e, (Except.ok "Yes." : Except String String) = Except.error e →
      (getAnswer sampleReadyState "Can I swap lunch?" (Except.ok "Yes.")).1 =
        sampleReadyState ∧
      Event.showError ("❌ Failed to get answer: " ++ e) ∈
        (getAnswer sampleReadyState "Can I swap lunch?" (Except.ok "Yes.")).2) :=
  getAnswer_context_call_append sampleReadyState sampleDietaryPlan
    sampleFitnessPlan "Can I swap lunch?" (Except.ok "Yes.") rfl rfl (by decide)

/-- C8: every generation call of the generate-plans handler carries the
single profile prompt — the calls made are, in order, among the
dietary-agent call and the fitness-agent call on that prompt — the prompt
embeds all seven profile fields verbatim, and the two agent configurations
share the same model while their instruction texts differ. -/
theorem generatePlans_prompts_verbatim_agents_differ
    (s : SessionState) (p : Profile) (r1 r2 : Except String String) :
    List.Sublist (List.filter Event.isCall (generatePlans s p r1 r2).2)
      [Event.llmCall dietary_agent (user_profile p),
       Event.llmCall fitness_agent (user_profile p)] ∧
    ContainsStr (user_profile p) p.age ∧
    ContainsStr (user_profile p) p.weight ∧
    ContainsStr (user_profile p) p.height ∧
    ContainsStr (user_profile p) p.sex ∧
    ContainsStr (user_profile p) p.activity_level ∧
    ContainsStr (user_profile p) p.dietary_preferences ∧
    ContainsStr (user_profile p) p.fitness_goals ∧
    dietary_agent.model = fitness_agent.model ∧
    dietary_agent.instructions ≠ fitness_agent.instructions := by
  refine ⟨?_, ?_, ?_, ?_, ?_, ?_, ?_, ?_, rfl, by decide⟩
  · cases r1 with
    | error e =>
        simp only [generatePlans]
        exact List.Sublist.cons₂ _ (List.nil_sublist _)
    | ok m =>
        cases r2 with
        | error e =>
            simp only [generatePlans]
            exact List.Sublist.refl _
        | ok rt =>
            simp only [generatePlans]
            exact List.Sublist.refl _
  all_goals simp only [user_profile]
  all_goals repeat first | exact containsStr_head _ _ | apply containsStr_appendl

/-- Witness for C8 at a concrete profile and a run where both calls
succeed. -/
theorem generatePlans_prompts_verbatim_agents_differ_witness :
    List.Sublist (List.filter Event.isCall
        (generatePlans initState sampleProfile (Except.ok "meal text")
          (Except.ok "routine text")).2)
      [Event.llmCall dietary_agent (user_profile sampleProfile),
       Event.llmCall fitness_agent (user_profile sampleProfile)] ∧
    ContainsStr (user_profile sampleProfile) sampleProfile.age ∧
    ContainsStr (user_profile sampleProfile) sampleProfile.weight ∧
    ContainsStr (user_profile sampleProfile) sampleProfile.height ∧
    ContainsStr (user_profile sampleProfile) sampleProfile.sex ∧
    ContainsStr (user_profile sampleProfile) sampleProfile.activity_level ∧
    ContainsStr (user_profile sampleProfile) sampleProfile.dietary_preferences ∧
    ContainsStr (user_profile sampleProfile) sampleProfile.fitness_goals ∧
    dietary_agent.model = fitness_agent.model ∧
    dietary_agent.instructions ≠ fitness_agent.instructions :=
  generatePlans_prompts_verbatim_agents_differ initState sampleProfile
    (Except.ok "meal text") (Except.ok "routine text")

end HealthAgent
